import Mathlib

/-
Verification development for the route animation component
(src/vue/src/components/RouteAnimation.vue).

The geometry engine is embedded as pure functions over rational
coordinates, parametric in the pairwise distance function (the source
uses the Leaflet great circle distance).  The animation scheduler and
recording pipeline are embedded as explicit state transformers over a
record mirroring the reactive refs of the component; JavaScript numbers
that can be null, undefined or NaN in the source are modelled by the
three valued type JVal.  Vue watcher effects (the watch on isAnimating)
are linearised: each user level operation applies the watcher callback
that its own mutation of isAnimating triggers.
-/

set_option linter.unusedVariables false

/-- Coordinate pair modelling a Leaflet latLng value, with exact rational
components. -/
@[ext]
structure Coord where
  lat : ℚ
  lng : ℚ
deriving DecidableEq, Repr

instance : Inhabited Coord := ⟨⟨0, 0⟩⟩

/-- Linear interpolation between two coordinates, exactly as computed in the
interpolation branches of getLatLngAndRotationAtDistance and
getCoordinatesForProgress: lat = start.lat + (end.lat - start.lat) * r,
and likewise for lng. -/
def interpPoint (s e : Coord) (r : ℚ) : Coord :=
  ⟨s.lat + (e.lat - s.lat) * r, s.lng + (e.lng - s.lng) * r⟩

/-- calculateTotalDistance from the source: sum of consecutive pairwise
distances, 0 for paths of fewer than 2 points.  The pairwise distance
function dist is a parameter (the source uses latLng.distanceTo). -/
def calculateTotalDistance (dist : Coord → Coord → ℚ) : List Coord → ℚ
  | a :: b :: rest => dist a b + calculateTotalDistance dist (b :: rest)
  | _ => 0

/-- Cumulative distance along the first k segments of a path, that is the
distance traveled when the point of index k is reached. -/
def cumDist (dist : Coord → Coord → ℚ) (l : List Coord) (k : Nat) : ℚ :=
  calculateTotalDistance dist (l.take (k + 1))

/-- Loop of getLatLngAndRotationAtDistance: walks consecutive segment pairs
accumulating traveled distance; on the first segment where
traveled + segmentDistance >= distance it returns the interpolated point;
after the loop the source returns latLngs[latLngs.length - 1], which is the
last element of the suffix still to be walked (undefined, hence none, for an
empty path). -/
def getLatLngAtDistanceLoop (dist : Coord → Coord → ℚ) (d : ℚ) :
    ℚ → List Coord → Option Coord
  | traveled, a :: b :: rest =>
    if d ≤ traveled + dist a b then
      some (interpPoint a b ((d - traveled) / dist a b))
    else
      getLatLngAtDistanceLoop dist d (traveled + dist a b) (b :: rest)
  | _, l => l.getLast?

/-- getLatLngAndRotationAtDistance from the source.  The rotation component
of the returned record is the constant 0 in the source, so the embedding
returns only the latLng component; none models the undefined value produced
by indexing an empty array. -/
def getLatLngAndRotationAtDistance (dist : Coord → Coord → ℚ)
    (latLngs : List Coord) (distance : ℚ) : Option Coord :=
  if distance ≤ 0 then latLngs.head?
  else getLatLngAtDistanceLoop dist distance 0 latLngs

/-- Loop of getCoordinatesForProgress: acc is the list of points already
pushed (latLngs.slice(0, i) of the source indexing); on a hit the source
pushes latLngs.slice(0, i + 1) and then the interpolated point; after the
loop it returns a copy of the full path. -/
def getCoordinatesForProgressLoop (dist : Coord → Coord → ℚ) (d : ℚ) :
    ℚ → List Coord → List Coord → List Coord
  | traveled, acc, a :: b :: rest =>
    if d ≤ traveled + dist a b then
      acc ++ [a, interpPoint a b ((d - traveled) / dist a b)]
    else
      getCoordinatesForProgressLoop dist d (traveled + dist a b) (acc ++ [a]) (b :: rest)
  | _, acc, l => acc ++ l

/-- getCoordinatesForProgress from the source: for distance <= 0 or a path of
fewer than 2 points it returns the single first point (the empty list for an
empty path), otherwise it runs the segment loop. -/
def getCoordinatesForProgress (dist : Coord → Coord → ℚ)
    (latLngs : List Coord) (distance : ℚ) : List Coord :=
  if distance ≤ 0 ∨ latLngs.length < 2 then
    match latLngs with
    | [] => []
    | a :: _ => [a]
  else getCoordinatesForProgressLoop dist distance 0 [] latLngs

/-- Instrumentation of the loop of getLatLngAndRotationAtDistance: identical
control flow, returning true exactly when the interpolation branch (the only
division site of that function) is reached with a zero segment distance. -/
def getLatLngLoopDividesByZero (dist : Coord → Coord → ℚ) (d : ℚ) :
    ℚ → List Coord → Bool
  | traveled, a :: b :: rest =>
    if d ≤ traveled + dist a b then
      if dist a b = 0 then true else false
    else
      getLatLngLoopDividesByZero dist d (traveled + dist a b) (b :: rest)
  | _, _ => false

/-- Divide by zero detector for getLatLngAndRotationAtDistance: true exactly
when running the source function on these inputs would evaluate the
interpolation quotient with a zero denominator. -/
def getLatLngDividesByZero (dist : Coord → Coord → ℚ)
    (latLngs : List Coord) (distance : ℚ) : Bool :=
  if distance ≤ 0 then false
  else getLatLngLoopDividesByZero dist distance 0 latLngs

/-- Instrumentation of the loop of getCoordinatesForProgress: identical
control flow, returning true exactly when the interpolation branch (the only
division site of that function) is reached with a zero segment distance. -/
def getCoordinatesLoopDividesByZero (dist : Coord → Coord → ℚ) (d : ℚ) :
    ℚ → List Coord → Bool
  | traveled, a :: b :: rest =>
    if d ≤ traveled + dist a b then
      if dist a b = 0 then true else false
    else
      getCoordinatesLoopDividesByZero dist d (traveled + dist a b) (b :: rest)
  | _, _ => false

/-- Divide by zero detector for getCoordinatesForProgress: true exactly when
running the source function on these inputs would evaluate the interpolation
quotient with a zero denominator. -/
def getCoordinatesDividesByZero (dist : Coord → Coord → ℚ)
    (latLngs : List Coord) (distance : ℚ) : Bool :=
  if distance ≤ 0 ∨ latLngs.length < 2 then false
  else getCoordinatesLoopDividesByZero dist distance 0 latLngs

/-- Taxicab distance on rational coordinates: a concrete nonnegative, point
separating and segment linear distance function, used to evaluate the
development on concrete inputs. -/
def taxicab (a b : Coord) : ℚ := |b.lat - a.lat| + |b.lng - a.lng|

/-- Three valued JavaScript number: an actual (rational) number, null, or a
value that is NaN or undefined.  NaN and undefined are collapsed into one
constructor: both are falsy and both propagate NaN through the arithmetic
used by the scheduler. -/
inductive JVal where
  | num (q : ℚ)
  | null
  | nan
deriving DecidableEq, Repr

/-- Numeric coercion: null coerces to 0 as in JavaScript arithmetic and
relational operators; NaN and undefined have no numeric value. -/
def JVal.toNumber : JVal → Option ℚ
  | num q => some q
  | null => some 0
  | nan => none

/-- JavaScript truthiness test for the values a timestamp or startTime can
take: null, undefined, NaN and 0 are falsy. -/
def JVal.falsy : JVal → Bool
  | num q => decide (q = 0)
  | null => true
  | nan => true

/-- JavaScript subtraction on JVal. -/
def jsub (a b : JVal) : JVal :=
  match a.toNumber, b.toNumber with
  | some x, some y => JVal.num (x - y)
  | _, _ => JVal.nan

/-- JavaScript division on JVal.  Division by zero is modelled as nan; in
JavaScript a nonzero numerator would instead give an infinity, but every
theorem below only exercises this operation with a nonzero denominator. -/
def jdiv (a b : JVal) : JVal :=
  match a.toNumber, b.toNumber with
  | some x, some y => if y = 0 then JVal.nan else JVal.num (x / y)
  | _, _ => JVal.nan

/-- JavaScript multiplication on JVal. -/
def jmul (a b : JVal) : JVal :=
  match a.toNumber, b.toNumber with
  | some x, some y => JVal.num (x * y)
  | _, _ => JVal.nan

/-- Math.min on JVal: NaN if either argument is NaN. -/
def jmin (a b : JVal) : JVal :=
  match a.toNumber, b.toNumber with
  | some x, some y => JVal.num (min x y)
  | _, _ => JVal.nan

/-- JavaScript relational <= on JVal: false whenever a NaN is involved. -/
def jle (a b : JVal) : Bool :=
  match a.toNumber, b.toNumber with
  | some x, some y => decide (x ≤ y)
  | _, _ => false

/-- State of the animation scheduler and capture pipeline: the reactive refs
and module level variables of the component that the animation and recording
logic reads and writes.  pendingStop records that mediaRecorder.stop() has
been called but its asynchronous onstop callback has not yet run;
downloadUrl = some chunks models an object URL for the blob assembled from
those recorded chunks. -/
structure AnimState where
  isAnimating : Bool
  animationSpeed : ℚ
  progress : JVal
  startTime : JVal
  animationFrameId : Option Nat
  markerExists : Bool
  isRecording : Bool
  hasRecorder : Bool
  captureTimerOn : Bool
  pendingStop : Bool
  recordedChunks : List Nat
  downloadUrl : Option (List Nat)
  error : Option String
deriving DecidableEq, Repr

/-- Component state right after a successful mount: progress ref 0, startTime
null, default speed 145, nothing recording, no marker yet, no error. -/
def mountedState : AnimState :=
  { isAnimating := false
    animationSpeed := 145
    progress := JVal.num 0
    startTime := JVal.null
    animationFrameId := none
    markerExists := false
    isRecording := false
    hasRecorder := false
    captureTimerOn := false
    pendingStop := false
    recordedChunks := []
    downloadUrl := none
    error := none }

/-- Write of the speed slider (v-model on animationSpeed). -/
def setAnimationSpeed (s : AnimState) (v : ℚ) : AnimState :=
  { s with animationSpeed := v }

/-- kmPerHourToMetersPerMs from the source. -/
def kmPerHourToMetersPerMs (kmh : ℚ) : ℚ := kmh * 1000 / 3600

/-- Effective animation rate in meters per millisecond for a given speed:
kmPerHourToMetersPerMs(speed) times the stylised pacing multiplier 0.2 used
in animate. -/
def effectiveRate (v : ℚ) : ℚ := kmPerHourToMetersPerMs v * (1 / 5)

/-- startRecording from the source: no op while already recording, otherwise
allocates the canvas and MediaRecorder, clears recordedChunks, starts the
recorder and the 33 ms capture interval. -/
def startRecording (s : AnimState) : AnimState :=
  if s.isRecording then s
  else
    { s with
      hasRecorder := true
      recordedChunks := []
      isRecording := true
      captureTimerOn := true }

/-- stopRecording from the source: if a recorder exists and recording is on,
clears the capture interval and calls mediaRecorder.stop(), which queues the
asynchronous onstop callback (pendingStop); otherwise a no op. -/
def stopRecording (s : AnimState) : AnimState :=
  if s.hasRecorder ∧ s.isRecording then
    { s with
      captureTimerOn := false
      pendingStop := true
      isRecording := false }
  else s

/-- Event loop step running the queued MediaRecorder onstop callback, which
builds a blob from recordedChunks and stores an object URL for it in
downloadUrl. -/
def runPendingOnStop (s : AnimState) : AnimState :=
  if s.pendingStop then
    { s with pendingStop := false, downloadUrl := some s.recordedChunks }
  else s

/-- stopAnimation from the source: if a frame request id is pending (request
ids are positive, hence truthy), cancel it and set the module level startTime
to 0. -/
def stopAnimation (s : AnimState) : AnimState :=
  if s.animationFrameId.isSome then
    { s with animationFrameId := none, startTime := JVal.num 0 }
  else s

/-- resetAnimation from the source (the function body itself, without the
isAnimating watcher it triggers): stop recording, force isAnimating false and
progress 0, clear startTime and downloadUrl; marker and camera repositioning
are external rendering effects. -/
def resetAnimation (s : AnimState) : AnimState :=
  let s1 := stopRecording s
  { s1 with
    isAnimating := false
    progress := JVal.num 0
    startTime := JVal.null
    downloadUrl := none }

/-- createMovingIcon from the source: places the marker and then calls
resetAnimation. -/
def createMovingIcon (s : AnimState) : AnimState :=
  resetAnimation { s with markerExists := true }

/-- animate from the source.  Returns the new state together with a flag
telling whether requestAnimationFrame was called on this tick.  A bare
animate() call (the bootstrap call in startAnimation) is modelled by passing
JVal.nan as the timestamp, matching the undefined argument in the source. -/
def animate (dist : Coord → Coord → ℚ) (coords : List Coord)
    (s : AnimState) (timestamp : JVal) : AnimState × Bool :=
  if s.isAnimating = false then (s, false)
  else
    let st := if s.startTime.falsy then timestamp else s.startTime
    let elapsed := jsub timestamp st
    let totalDist := calculateTotalDistance dist coords
    let speedMetersPerMs := kmPerHourToMetersPerMs s.animationSpeed
    let effectiveSpeed := speedMetersPerMs * (1 / 5)
    let estimatedDuration := jdiv (JVal.num totalDist) (JVal.num effectiveSpeed)
    let prog := jmin (jdiv elapsed estimatedDuration) (JVal.num 1)
    let s1 := { s with startTime := st, progress := prog }
    if jle (JVal.num 1) prog then
      (stopRecording { s1 with isAnimating := false, startTime := JVal.null }, false)
    else
      ({ s1 with animationFrameId := some 1 }, true)

/-- startAnimation from the source: refuses (forcing isAnimating false) when
the selected path has fewer than 2 coordinates; otherwise creates the marker
if absent, clears the previous download link, starts recording and makes the
bootstrap animate() call. -/
def startAnimation (dist : Coord → Coord → ℚ) (coords : List Coord)
    (s : AnimState) : AnimState × Bool :=
  if coords.length < 2 then ({ s with isAnimating := false }, false)
  else
    let s1 := if s.markerExists then s else createMovingIcon s
    let s2 := { s1 with downloadUrl := none }
    let s3 := startRecording s2
    animate dist coords s3 JVal.nan

/-- User level start (or resume): toggleAnimation from a non animating state
sets isAnimating true, the watcher runs startAnimation, and if startAnimation
reverted isAnimating to false the retriggered watcher runs stopAnimation. -/
def startC (dist : Coord → Coord → ℚ) (coords : List Coord)
    (s : AnimState) : AnimState × Bool :=
  let r := startAnimation dist coords { s with isAnimating := true }
  (if r.1.isAnimating then r.1 else stopAnimation r.1, r.2)

/-- User level pause: toggleAnimation from an animating state sets
isAnimating false and the watcher runs stopAnimation. -/
def pauseC (s : AnimState) : AnimState :=
  stopAnimation { s with isAnimating := false }

/-- User level reset: resetAnimation plus, when isAnimating was true before
the call, the stopAnimation run by the isAnimating watcher. -/
def resetC (s : AnimState) : AnimState :=
  let s1 := resetAnimation s
  if s.isAnimating then stopAnimation s1 else s1

/-- Marker position computed by updateMarkerPosition each frame:
currentDist = totalDist * progress, then getLatLngAndRotationAtDistance.
With a NaN current distance (possible only on the bootstrap frame) every
comparison in the source loop is false, so the loop falls through to the last
coordinate; none models the undefined latLng of an empty path, which the
source guards with: if (latLng && ...). -/
def markerPosition (dist : Coord → Coord → ℚ) (coords : List Coord)
    (s : AnimState) : Option Coord :=
  match jmul (JVal.num (calculateTotalDistance dist coords)) s.progress with
  | JVal.num q => getLatLngAndRotationAtDistance dist coords q
  | _ => coords.getLast?

/-- Zoom computed in updateMarkerPosition before clamping:
maxZoom - ((speed - 10) / (300 - 10)) * (maxZoom - minZoom) with
minZoom = 12, maxZoom = 17. -/
def markerZoom (speed : ℚ) : ℚ :=
  17 - ((speed - 10) / (300 - 10)) * (17 - 12)

/-- Clamped zoom applied by updateMarkerPosition:
Math.min(Math.max(zoom, minZoom), maxZoom). -/
def clampedMarkerZoom (speed : ℚ) : ℚ :=
  min (max (markerZoom speed) 12) 17

/-- Two point demonstration path of taxicab length 1000. -/
def cexPath : List Coord := [⟨0, 0⟩, ⟨0, 1000⟩]

/-- Demonstration path with a degenerate duplicated final point: taxicab
length is still 1000, contributed entirely by the first segment. -/
def cexPathDup : List Coord := [⟨0, 0⟩, ⟨0, 1000⟩, ⟨0, 1000⟩]

/-- Single point path, too short to animate. -/
def shortPath : List Coord := [⟨0, 0⟩]

/-- Mounted state with the marker already placed and the speed slider at
90 km/h, the starting point of the concrete scheduler runs below. -/
def preRunState : AnimState :=
  { mountedState with animationSpeed := 90, markerExists := true }

/-- Concrete run, step 1: user presses play; recording starts and the
bootstrap animate() call schedules the first frame. -/
def runA : AnimState × Bool := startC taxicab cexPath preRunState

/-- Concrete run, step 2: first frame tick at timestamp 100; startTime is
anchored to 100 and progress becomes 0. -/
def runB : AnimState := (animate taxicab cexPath runA.1 (JVal.num 100)).1

/-- Concrete run, step 3: frame tick at timestamp 160; at 90 km/h the
effective rate is 5 m/ms, the estimated duration 200 ms, so progress is
60 / 200 = 3/10. -/
def runC : AnimState := (animate taxicab cexPath runB (JVal.num 160)).1

/-- Concrete run, step 4: the speed slider is moved from 90 to 180 km/h
between two consecutive ticks. -/
def runD : AnimState := setAnimationSpeed runC 180

/-- Concrete run, step 5: first frame tick after the speed change, at
timestamp 190. -/
def runE : AnimState := (animate taxicab cexPath runD (JVal.num 190)).1

/-- Concrete run, pause branch: user presses pause in state runC. -/
def runP : AnimState := pauseC runC

/-- Concrete run, resume after pause: toggle runs startAnimation again,
whose bootstrap animate() call leaves startTime undefined and progress
NaN until the next real tick. -/
def runR : AnimState × Bool := startC taxicab cexPath runP

/-- Concrete run, first real frame tick after the resume, at timestamp
200: startTime is re anchored to 200, elapsed is 0 and progress restarts
at 0. -/
def runT : AnimState := (animate taxicab cexPath runR.1 (JVal.num 200)).1

/-- Start then immediate reset scenario: user presses play from the mounted
state (marker already placed) and presses reset before the first frame tick
fires. -/
def c5AfterStart : AnimState × Bool := startC taxicab cexPath preRunState

/-- State right after the reset of the start then reset scenario: recording
has been stopped, which queued the recorder onstop callback, and downloadUrl
has been cleared by resetAnimation. -/
def c5AfterReset : AnimState := resetC c5AfterStart.1

/-- Final state of the start then reset scenario once the event loop has run
the queued onstop callback. -/
def c5Final : AnimState := runPendingOnStop c5AfterReset

/-- Total distance of any path is nonnegative when the pairwise distance is. -/
theorem ctd_nonneg (dist : Coord → Coord → ℚ) (hd : ∀ a b, 0 ≤ dist a b) :
    ∀ l : List Coord, 0 ≤ calculateTotalDistance dist l := by
  intro l
  induction l with
  | nil => simp [calculateTotalDistance]
  | cons a t ih =>
    cases t with
    | nil => simp [calculateTotalDistance]
    | cons b rest =>
      have := hd a b
      simp only [calculateTotalDistance] at ih ⊢
      linarith

/-- Paths of fewer than 2 points have total distance 0. -/
theorem ctd_short (dist : Coord → Coord → ℚ) (l : List Coord)
    (h : l.length < 2) : calculateTotalDistance dist l = 0 := by
  match l with
  | [] => rfl
  | [a] => rfl
  | a :: b :: rest => simp only [List.length_cons] at h; omega

/-- A path of positive total distance has at least 2 points. -/
theorem two_le_length_of_ctd_pos (dist : Coord → Coord → ℚ) (l : List Coord)
    (h : 0 < calculateTotalDistance dist l) : 2 ≤ l.length := by
  by_contra hlt
  rw [ctd_short dist l (by omega)] at h
  exact lt_irrefl 0 h

/-- For a nonnegative, point separating distance, a path of total distance 0
starts and ends at the same coordinate. -/
theorem head_eq_getLast_of_ctd_zero (dist : Coord → Coord → ℚ)
    (hd : ∀ a b, 0 ≤ dist a b) (hs : ∀ a b, dist a b = 0 → a = b) :
    ∀ l : List Coord, calculateTotalDistance dist l = 0 → l.head? = l.getLast? := by
  intro l
  induction l with
  | nil => intro _; rfl
  | cons a t ih =>
    cases t with
    | nil => intro _; rfl
    | cons b rest =>
      intro h
      simp only [calculateTotalDistance] at h
      have h1 : dist a b = 0 ∧ calculateTotalDistance dist (b :: rest) = 0 :=
        (add_eq_zero_iff_of_nonneg (hd a b) (ctd_nonneg dist hd (b :: rest))).mp h
      have hab : a = b := hs a b h1.1
      have h2 := ih h1.2
      rw [List.getLast?_cons_cons]
      simp only [List.head?] at h2 ⊢
      rw [← h2, hab]

/-- The interpolation loop of getLatLngAndRotationAtDistance never reaches its
division with a zero denominator, as long as the traveled distance is still
strictly below the target distance (this is an invariant of the loop). -/
theorem getLatLngLoop_divZero_false (dist : Coord → Coord → ℚ) (d : ℚ) :
    ∀ (l : List Coord) (traveled : ℚ), traveled < d →
      getLatLngLoopDividesByZero dist d traveled l = false := by
  intro l
  induction l with
  | nil => intro traveled _; rfl
  | cons a t ih =>
    cases t with
    | nil => intro traveled _; rfl
    | cons b rest =>
      intro traveled ht
      simp only [getLatLngLoopDividesByZero]
      by_cases h : d ≤ traveled + dist a b
      · have hpos : 0 < dist a b := by linarith
        simp [h, ne_of_gt hpos]
      · have h' : traveled + dist a b < d := lt_of_not_le h
        simp only [h, if_false]
        exact ih (traveled + dist a b) h'

/-- Same loop invariant for the loop of getCoordinatesForProgress. -/
theorem getCoordinatesLoop_divZero_false (dist : Coord → Coord → ℚ) (d : ℚ) :
    ∀ (l : List Coord) (traveled : ℚ), traveled < d →
      getCoordinatesLoopDividesByZero dist d traveled l = false := by
  intro l
  induction l with
  | nil => intro traveled _; rfl
  | cons a t ih =>
    cases t with
    | nil => intro traveled _; rfl
    | cons b rest =>
      intro traveled ht
      simp only [getCoordinatesLoopDividesByZero]
      by_cases h : d ≤ traveled + dist a b
      · have hpos : 0 < dist a b := by linarith
        simp [h, ne_of_gt hpos]
      · have h' : traveled + dist a b < d := lt_of_not_le h
        simp only [h, if_false]
        exact ih (traveled + dist a b) h'

/-- When the target distance is at least the whole remaining distance, the
interpolation loop of getLatLngAndRotationAtDistance produces the last
coordinate of the path (for a nonnegative, point separating distance). -/
theorem getLatLngLoop_getLast (dist : Coord → Coord → ℚ) (d : ℚ)
    (hd : ∀ a b, 0 ≤ dist a b) (hs : ∀ a b, dist a b = 0 → a = b) :
    ∀ (l : List Coord) (traveled : ℚ), traveled < d →
      traveled + calculateTotalDistance dist l ≤ d →
      getLatLngAtDistanceLoop dist d traveled l = l.getLast? := by
  intro l
  induction l with
  | nil => intro traveled _ _; rfl
  | cons a t ih =>
    cases t with
    | nil => intro traveled _ _; rfl
    | cons b rest =>
      intro traveled ht hle
      simp only [calculateTotalDistance] at hle
      simp only [getLatLngAtDistanceLoop]
      by_cases h : d ≤ traveled + dist a b
      · have hrest0 : calculateTotalDistance dist (b :: rest) = 0 := by
          have := ctd_nonneg dist hd (b :: rest)
          linarith
        have hde : d = traveled + dist a b := by linarith
        have hpos : 0 < dist a b := by linarith
        have hr : (d - traveled) / dist a b = 1 := by
          rw [hde]; field_simp
        have hib : interpPoint a b 1 = b := by
          unfold interpPoint
          ext <;> dsimp only <;> ring
        have hlast : (b :: rest).head? = (b :: rest).getLast? :=
          head_eq_getLast_of_ctd_zero dist hd hs (b :: rest) hrest0
        rw [if_pos h, hr, hib, List.getLast?_cons_cons, ← hlast]
        rfl
      · have h' : traveled + dist a b < d := lt_of_not_le h
        rw [if_neg h, List.getLast?_cons_cons]
        exact ih (traveled + dist a b) h' (by linarith)

/-- Nonnegativity of the taxicab distance. -/
theorem taxicab_nonneg : ∀ a b : Coord, 0 ≤ taxicab a b := by
  intro a b; unfold taxicab; positivity

/-- The taxicab distance separates points. -/
theorem taxicab_eq_zero : ∀ a b : Coord, taxicab a b = 0 → a = b := by
  intro a b h
  unfold taxicab at h
  have h1 := abs_nonneg (b.lat - a.lat)
  have h2 := abs_nonneg (b.lng - a.lng)
  have e1 : b.lat - a.lat = 0 := abs_eq_zero.mp (by linarith)
  have e2 : b.lng - a.lng = 0 := abs_eq_zero.mp (by linarith)
  ext <;> linarith

/-- The taxicab distance is linear along interpolated segments. -/
theorem taxicab_interp_linear :
    ∀ (a b : Coord) (r : ℚ), 0 ≤ r → r ≤ 1 →
      taxicab a (interpPoint a b r) = r * taxicab a b := by
  intro a b r h0 _
  unfold taxicab interpPoint
  simp only
  rw [show a.lat + (b.lat - a.lat) * r - a.lat = (b.lat - a.lat) * r by ring,
    show a.lng + (b.lng - a.lng) * r - a.lng = (b.lng - a.lng) * r by ring,
    abs_mul, abs_mul, abs_of_nonneg h0]
  ring

/-- C3: pointAtDistance and prefixAtDistance are total functions that never
divide by zero, for every distance function, path and distance: the
interpolation branch is provably never reached with a zero length segment
(because the traveled distance stays strictly below the target distance), an
empty path yields an undefined point respectively an empty list instead of a
failure, a single point path yields that point, and a zero length segment
contributes 0 to the traveled distance. -/
theorem c3_total_no_division_by_zero (dist : Coord → Coord → ℚ)
    (latLngs : List Coord) (d : ℚ) :
    getLatLngDividesByZero dist latLngs d = false ∧
    getCoordinatesDividesByZero dist latLngs d = false ∧
    getLatLngAndRotationAtDistance dist [] d = none ∧
    getCoordinatesForProgress dist [] d = [] ∧
    (∀ x : Coord, getLatLngAndRotationAtDistance dist [x] d = some x ∧
      getCoordinatesForProgress dist [x] d = [x]) ∧
    (∀ a b l, dist a b = 0 →
      calculateTotalDistance dist (a :: b :: l) = calculateTotalDistance dist (b :: l)) := by
  refine ⟨?_, ?_, ?_, ?_, ?_, ?_⟩
  · unfold getLatLngDividesByZero
    by_cases h : d ≤ 0
    · simp [h]
    · simp only [h, if_false]
      exact getLatLngLoop_divZero_false dist d latLngs 0 (by linarith [lt_of_not_le h])
  · unfold getCoordinatesDividesByZero
    by_cases h : d ≤ 0 ∨ latLngs.length < 2
    · simp [h]
    · simp only [h, if_false]
      have hd0 : 0 < d := by
        rcases not_or.mp h with ⟨h1, _⟩
        exact lt_of_not_le h1
      exact getCoordinatesLoop_divZero_false dist d latLngs 0 hd0
  · unfold getLatLngAndRotationAtDistance
    by_cases h : d ≤ 0 <;> simp [h, getLatLngAtDistanceLoop]
  · unfold getCoordinatesForProgress
    simp
  · intro x
    constructor
    · unfold getLatLngAndRotationAtDistance
      by_cases h : d ≤ 0 <;> simp [h, getLatLngAtDistanceLoop]
    · unfold getCoordinatesForProgress
      simp
  · intro a b l h
    simp [calculateTotalDistance, h]

/-- Witness for C3 at concrete inputs: the detectors evaluate to false on a
path with a degenerate duplicated point, and a concrete zero length segment
contributes 0 to the total distance. -/
theorem c3_witness :
    getLatLngDividesByZero taxicab cexPathDup 500 = false ∧
    getCoordinatesDividesByZero taxicab cexPathDup 500 = false ∧
    taxicab ⟨1, 1⟩ ⟨1, 1⟩ = 0 ∧
    calculateTotalDistance taxicab (⟨1, 1⟩ :: ⟨1, 1⟩ :: cexPath) =
      calculateTotalDistance taxicab (⟨1, 1⟩ :: cexPath) :=
  ⟨(c3_total_no_division_by_zero taxicab cexPathDup 500).1,
   (c3_total_no_division_by_zero taxicab cexPathDup 500).2.1,
   by norm_num [taxicab],
   (c3_total_no_division_by_zero taxicab cexPathDup 500).2.2.2.2.2 ⟨1, 1⟩ ⟨1, 1⟩ cexPath
     (by norm_num [taxicab])⟩

/-- C7: for every path with at least 2 points and a nonnegative, point
separating distance function (as the great circle distance of the source),
pointAtDistance returns the first coordinate for every d at most 0 and the
last coordinate for every d at least the total distance. -/
theorem c7_endpoints (dist : Coord → Coord → ℚ)
    (hd : ∀ a b, 0 ≤ dist a b) (hs : ∀ a b, dist a b = 0 → a = b)
    (latLngs : List Coord) (hlen : 2 ≤ latLngs.length) :
    (∀ d, d ≤ 0 → getLatLngAndRotationAtDistance dist latLngs d = latLngs.head?) ∧
    (∀ d, calculateTotalDistance dist latLngs ≤ d →
      getLatLngAndRotationAtDistance dist latLngs d = latLngs.getLast?) := by
  constructor
  · intro d hd0
    unfold getLatLngAndRotationAtDistance
    rw [if_pos hd0]
  · intro d hdist
    unfold getLatLngAndRotationAtDistance
    by_cases h : d ≤ 0
    · rw [if_pos h]
      have hz : calculateTotalDistance dist latLngs = 0 := by
        have := ctd_nonneg dist hd latLngs
        linarith
      exact head_eq_getLast_of_ctd_zero dist hd hs latLngs hz
    · rw [if_neg h]
      exact getLatLngLoop_getLast dist d hd hs latLngs 0
        (by linarith [lt_of_not_le h]) (by linarith)

/-- Witness for C7: on the concrete two point path, pointAtDistance at 0
returns the first point and at the total distance (1000) the last point. -/
theorem c7_witness :
    2 ≤ cexPath.length ∧
    getLatLngAndRotationAtDistance taxicab cexPath 0 = cexPath.head? ∧
    getLatLngAndRotationAtDistance taxicab cexPath 1000 = cexPath.getLast? :=
  ⟨by decide,
   (c7_endpoints taxicab taxicab_nonneg taxicab_eq_zero cexPath (by decide)).1 0 le_rfl,
   (c7_endpoints taxicab taxicab_nonneg taxicab_eq_zero cexPath (by decide)).2 1000
     (by norm_num [calculateTotalDistance, taxicab, cexPath])⟩

/-- Cumulative distance at index 0 is 0. -/
theorem cumDist_zero (dist : Coord → Coord → ℚ) (l : List Coord) :
    cumDist dist l 0 = 0 := by
  cases l with
  | nil => rfl
  | cons a t => rfl

/-- Cumulative distance peels off the first segment. -/
theorem cumDist_cons (dist : Coord → Coord → ℚ) (a b : Coord)
    (rest : List Coord) (k : Nat) :
    cumDist dist (a :: b :: rest) (k + 1) = dist a b + cumDist dist (b :: rest) k := rfl

/-- When the target distance strictly exceeds the whole remaining distance,
the loop of getCoordinatesForProgress falls through every segment and returns
the accumulated points followed by the full remaining path. -/
theorem getCoordinatesLoop_fallthrough (dist : Coord → Coord → ℚ) (d : ℚ)
    (hd : ∀ a b, 0 ≤ dist a b) :
    ∀ (l : List Coord) (traveled : ℚ) (acc : List Coord),
      traveled + calculateTotalDistance dist l < d →
      getCoordinatesForProgressLoop dist d traveled acc l = acc ++ l := by
  intro l
  induction l with
  | nil => intro traveled acc _; rfl
  | cons a t ih =>
    cases t with
    | nil => intro traveled acc _; rfl
    | cons b rest =>
      intro traveled acc h
      simp only [calculateTotalDistance] at h
      have h0 := ctd_nonneg dist hd (b :: rest)
      have hmiss : ¬ d ≤ traveled + dist a b := by push_neg; linarith
      simp only [getCoordinatesForProgressLoop, hmiss, if_false]
      rw [ih (traveled + dist a b) (acc ++ [a]) (by linarith)]
      simp

/-- When the target distance lies strictly beyond the traveled distance but
within the remaining distance, the loop of getCoordinatesForProgress stops at
the first segment whose cumulative distance reaches the target, returning the
accumulated points, the whole segment endpoints up to that segment, and one
interpolated point on it. -/
theorem getCoordinatesLoop_hit (dist : Coord → Coord → ℚ) (d : ℚ) :
    ∀ (l : List Coord) (traveled : ℚ) (acc : List Coord),
      traveled < d → d ≤ traveled + calculateTotalDistance dist l →
      ∃ i, i + 1 < l.length ∧
        d ≤ traveled + cumDist dist l (i + 1) ∧
        (∀ j, j < i → traveled + cumDist dist l (j + 1) < d) ∧
        getCoordinatesForProgressLoop dist d traveled acc l =
          acc ++ l.take (i + 1) ++
            [interpPoint (l.getD i default) (l.getD (i + 1) default)
              ((d - (traveled + cumDist dist l i)) /
                dist (l.getD i default) (l.getD (i + 1) default))] := by
  intro l
  induction l with
  | nil =>
    intro traveled acc h1 h2
    exfalso
    simp [calculateTotalDistance] at h2
    linarith
  | cons a t ih =>
    cases t with
    | nil =>
      intro traveled acc h1 h2
      exfalso
      simp [calculateTotalDistance] at h2
      linarith
    | cons b rest =>
      intro traveled acc h1 h2
      by_cases hhit : d ≤ traveled + dist a b
      · refine ⟨0, ?_, ?_, ?_, ?_⟩
        · simp only [List.length_cons]; omega
        · rw [cumDist_cons dist a b rest 0, cumDist_zero]
          linarith
        · intro j hj; omega
        · simp only [getCoordinatesForProgressLoop, hhit, if_true]
          rw [cumDist_zero]
          simp [List.getD_cons_zero, List.getD_cons_succ, List.append_assoc]
      · have hmiss : traveled + dist a b < d := lt_of_not_le hhit
        have h2' : d ≤ traveled + dist a b + calculateTotalDistance dist (b :: rest) := by
          simp only [calculateTotalDistance] at h2; linarith
        obtain ⟨i, hi1, hi2, hi3, hi4⟩ := ih (traveled + dist a b) (acc ++ [a]) hmiss h2'
        refine ⟨i + 1, ?_, ?_, ?_, ?_⟩
        · simp only [List.length_cons] at hi1 ⊢; omega
        · rw [cumDist_cons dist a b rest (i + 1)]; linarith
        · intro j hj
          cases j with
          | zero =>
            rw [cumDist_cons dist a b rest 0, cumDist_zero]
            linarith
          | succ j' =>
            have hj' : j' < i := by omega
            have := hi3 j' hj'
            rw [cumDist_cons dist a b rest (j' + 1)]
            linarith
        · simp only [getCoordinatesForProgressLoop, hhit, if_false]
          rw [hi4, cumDist_cons dist a b rest i]
          simp [List.take_succ_cons, List.getD_cons_succ, List.append_assoc, add_assoc]

/-- Counterexample to C8 as stated: on a path whose final point is duplicated
(a degenerate zero length last segment), prefixAtDistance at exactly the
total distance does not return the full path: the duplicated final point is
dropped. -/
theorem c8_counterexample :
    calculateTotalDistance taxicab cexPathDup = 1000 ∧
    getCoordinatesForProgress taxicab cexPathDup 1000 ≠ cexPathDup := by
  constructor
  · norm_num [calculateTotalDistance, taxicab, cexPathDup]
  · have hv : getCoordinatesForProgress taxicab cexPathDup 1000 =
        [⟨0, 0⟩, ⟨0, 1000⟩] := by
      norm_num [getCoordinatesForProgress, cexPathDup, getCoordinatesForProgressLoop,
        taxicab, interpPoint]
    rw [hv]
    intro h
    exact absurd (congrArg List.length h) (by simp [cexPathDup])

/-- C8 as amended: for every nonnegative distance function and nonempty path,
prefixAtDistance returns the single first point if d is at most 0, the full
path if d strictly exceeds the total distance, and for 0 < d at most the
total distance it returns the whole segment endpoints traversed before d
followed by exactly one interpolated point at d on the first segment whose
cumulative distance reaches d (at d equal to the total distance with trailing
zero length segments this can be shorter than the full path). -/
theorem c8_values (dist : Coord → Coord → ℚ) (hd : ∀ a b, 0 ≤ dist a b)
    (path : List Coord) (hne : path ≠ []) :
    (∀ d, d ≤ 0 → getCoordinatesForProgress dist path d = [path.getD 0 default]) ∧
    (∀ d, calculateTotalDistance dist path < d →
      getCoordinatesForProgress dist path d = path) ∧
    (∀ d, 0 < d → d ≤ calculateTotalDistance dist path →
      ∃ i, i + 1 < path.length ∧
        d ≤ cumDist dist path (i + 1) ∧
        (∀ j, j < i → cumDist dist path (j + 1) < d) ∧
        getCoordinatesForProgress dist path d =
          path.take (i + 1) ++
            [interpPoint (path.getD i default) (path.getD (i + 1) default)
              ((d - cumDist dist path i) /
                dist (path.getD i default) (path.getD (i + 1) default))]) := by
  refine ⟨?_, ?_, ?_⟩
  · intro d hd0
    cases path with
    | nil => exact absurd rfl hne
    | cons a t => simp [getCoordinatesForProgress, hd0]
  · intro d hlt
    have hdp : 0 < d := lt_of_le_of_lt (ctd_nonneg dist hd path) hlt
    by_cases hlen : path.length < 2
    · cases path with
      | nil => exact absurd rfl hne
      | cons a t =>
        cases t with
        | nil => simp [getCoordinatesForProgress]
        | cons b rest => simp only [List.length_cons] at hlen; omega
    · have hcond : ¬ (d ≤ 0 ∨ path.length < 2) := by
        push_neg
        exact ⟨hdp, le_of_not_lt hlen⟩
      unfold getCoordinatesForProgress
      rw [if_neg hcond]
      have := getCoordinatesLoop_fallthrough dist d hd path 0 [] (by linarith)
      simpa using this
  · intro d h0 hle
    have hctd : 0 < calculateTotalDistance dist path := lt_of_lt_of_le h0 hle
    have hlen2 : 2 ≤ path.length := two_le_length_of_ctd_pos dist path hctd
    have hcond : ¬ (d ≤ 0 ∨ path.length < 2) := by
      push_neg
      exact ⟨h0, by omega⟩
    obtain ⟨i, hi1, hi2, hi3, hi4⟩ :=
      getCoordinatesLoop_hit dist d path 0 [] h0 (by linarith)
    refine ⟨i, hi1, by simpa using hi2, fun j hj => by simpa using hi3 j hj, ?_⟩
    unfold getCoordinatesForProgress
    rw [if_neg hcond]
    simpa using hi4

/-- Witness for the amended C8 on concrete inputs: beyond the total distance
the full path is returned, and at a non positive distance the single first
point. -/
theorem c8_witness :
    cexPath ≠ [] ∧
    calculateTotalDistance taxicab cexPath < 2000 ∧
    getCoordinatesForProgress taxicab cexPath 2000 = cexPath ∧
    getCoordinatesForProgress taxicab cexPath (-5) = [cexPath.getD 0 default] :=
  ⟨by decide,
   by norm_num [calculateTotalDistance, taxicab, cexPath],
   (c8_values taxicab taxicab_nonneg cexPath (by decide)).2.1 2000
     (by norm_num [calculateTotalDistance, taxicab, cexPath]),
   (c8_values taxicab taxicab_nonneg cexPath (by decide)).1 (-5) (by norm_num)⟩

/-- The last element of a take of i + 1 elements is the element of index i. -/
theorem getLast_take_succ :
    ∀ (l : List Coord) (i : Nat), i < l.length →
      (l.take (i + 1)).getLast? = some (l.getD i default) := by
  intro l
  induction l with
  | nil => intro i hi; simp at hi
  | cons a t ih =>
    intro i hi
    cases i with
    | zero => simp
    | succ j =>
      simp only [List.length_cons] at hi
      have hj : j < t.length := by omega
      cases t with
      | nil => simp at hj
      | cons b t2 =>
        rw [List.take_succ_cons]
        cases hcase : (b :: t2).take (j + 1) with
        | nil => simp [List.take_succ_cons] at hcase
        | cons c t3 =>
          have hih := ih j hj
          rw [hcase] at hih
          rw [List.getLast?_cons_cons, hih]
          simp [List.getD_cons_succ]

/-- Appending one point to a path extends the total distance by the distance
from the previous last point. -/
theorem ctd_append_singleton (dist : Coord → Coord → ℚ) :
    ∀ (ys : List Coord) (x : Coord),
      calculateTotalDistance dist (ys ++ [x]) =
        calculateTotalDistance dist ys + (ys.getLast?).elim 0 (fun y => dist y x) := by
  intro ys
  induction ys with
  | nil => intro x; simp [calculateTotalDistance]
  | cons a t ih =>
    intro x
    cases t with
    | nil => simp [calculateTotalDistance]
    | cons b t2 =>
      have hstep : (a :: b :: t2) ++ [x] = a :: ((b :: t2) ++ [x]) := by simp
      rw [hstep]
      have hstep2 : a :: ((b :: t2) ++ [x]) = a :: b :: (t2 ++ [x]) := by simp
      rw [hstep2]
      simp only [calculateTotalDistance]
      have := ih x
      simp only [List.cons_append] at this
      rw [this, List.getLast?_cons_cons]
      ring

/-- Cumulative distance grows by the length of the segment of index i. -/
theorem cumDist_succ (dist : Coord → Coord → ℚ) :
    ∀ (l : List Coord) (i : Nat), i + 1 < l.length →
      cumDist dist l (i + 1) =
        cumDist dist l i + dist (l.getD i default) (l.getD (i + 1) default) := by
  intro l
  induction l with
  | nil => intro i hi; simp at hi
  | cons a t ih =>
    intro i hi
    simp only [List.length_cons] at hi
    cases i with
    | zero =>
      cases t with
      | nil => simp at hi
      | cons b t2 =>
        rw [cumDist_cons dist a b t2 0, cumDist_zero, cumDist_zero]
        simp [List.getD_cons_zero, List.getD_cons_succ]
    | succ j =>
      cases t with
      | nil => simp at hi
      | cons b t2 =>
        rw [cumDist_cons dist a b t2 (j + 1), cumDist_cons dist a b t2 j,
          ih j (by simp only [List.length_cons] at hi ⊢; omega)]
        simp only [List.getD_cons_succ]
        ring

/-- For a nonnegative, segment linear distance function, the cumulative
length of the trail returned by prefixAtDistance equals the requested
distance, for every distance between 0 and the total path length. -/
theorem ctd_progress_eq (dist : Coord → Coord → ℚ)
    (hd : ∀ a b, 0 ≤ dist a b)
    (hlin : ∀ (a b : Coord) (r : ℚ), 0 ≤ r → r ≤ 1 →
      dist a (interpPoint a b r) = r * dist a b)
    (path : List Coord) (hne : path ≠ []) (d : ℚ)
    (h0 : 0 ≤ d) (hle : d ≤ calculateTotalDistance dist path) :
    calculateTotalDistance dist (getCoordinatesForProgress dist path d) = d := by
  rcases eq_or_lt_of_le h0 with heq | hpos
  · cases path with
    | nil => exact absurd rfl hne
    | cons a t =>
      rw [← heq]
      simp [getCoordinatesForProgress, calculateTotalDistance]
  · have hctd : 0 < calculateTotalDistance dist path := lt_of_lt_of_le hpos hle
    have hlen2 : 2 ≤ path.length := two_le_length_of_ctd_pos dist path hctd
    have hcond : ¬ (d ≤ 0 ∨ path.length < 2) := by
      push_neg
      exact ⟨hpos, by omega⟩
    obtain ⟨i, hi1, hi2, hi3, hres⟩ :=
      getCoordinatesLoop_hit dist d path 0 [] hpos (by linarith)
    have hi2' : d ≤ cumDist dist path (i + 1) := by simpa using hi2
    have hres' : getCoordinatesForProgress dist path d =
        path.take (i + 1) ++
          [interpPoint (path.getD i default) (path.getD (i + 1) default)
            ((d - cumDist dist path i) /
              dist (path.getD i default) (path.getD (i + 1) default))] := by
      unfold getCoordinatesForProgress
      rw [if_neg hcond]
      simpa using hres
    have hcum_lt : cumDist dist path i < d := by
      cases i with
      | zero => rw [cumDist_zero]; exact hpos
      | succ j =>
        have := hi3 j (by omega)
        simpa using this
    have hsucc := cumDist_succ dist path i hi1
    have hseg : 0 < dist (path.getD i default) (path.getD (i + 1) default) := by
      have : d - cumDist dist path i ≤
          dist (path.getD i default) (path.getD (i + 1) default) := by
        rw [hsucc] at hi2'; linarith
      linarith
    have hr0 : 0 ≤ (d - cumDist dist path i) /
        dist (path.getD i default) (path.getD (i + 1) default) :=
      div_nonneg (by linarith) (le_of_lt hseg)
    have hr1 : (d - cumDist dist path i) /
        dist (path.getD i default) (path.getD (i + 1) default) ≤ 1 := by
      rw [div_le_one hseg]
      rw [hsucc] at hi2'; linarith
    rw [hres', ctd_append_singleton dist (path.take (i + 1)) _,
      getLast_take_succ path i (by omega)]
    have hlast : calculateTotalDistance dist (path.take (i + 1)) = cumDist dist path i := rfl
    rw [hlast]
    simp only [Option.elim]
    rw [hlin _ _ _ hr0 hr1, div_mul_cancel₀ _ (ne_of_gt hseg)]
    ring

/-- Counterexample to C6 as stated: on the concrete two point path with
distances 250 and 500 (both within [0, totalDistance]), the two trails have
the same point count, and the shorter trail is not an initial segment of the
longer one (only its interpolated final point differs). -/
theorem c6_counterexample :
    (0 : ℚ) ≤ 250 ∧ (250 : ℚ) < 500 ∧
    (500 : ℚ) ≤ calculateTotalDistance taxicab cexPath ∧
    getCoordinatesForProgress taxicab cexPath 250 = [⟨0, 0⟩, ⟨0, 250⟩] ∧
    getCoordinatesForProgress taxicab cexPath 500 = [⟨0, 0⟩, ⟨0, 500⟩] ∧
    ¬ ((getCoordinatesForProgress taxicab cexPath 250).length <
        (getCoordinatesForProgress taxicab cexPath 500).length) ∧
    ¬ (∃ t, getCoordinatesForProgress taxicab cexPath 250 ++ t =
        getCoordinatesForProgress taxicab cexPath 500) := by
  have h250 : getCoordinatesForProgress taxicab cexPath 250 = [⟨0, 0⟩, ⟨0, 250⟩] := by
    norm_num [getCoordinatesForProgress, cexPath, getCoordinatesForProgressLoop,
      taxicab, interpPoint]
  have h500 : getCoordinatesForProgress taxicab cexPath 500 = [⟨0, 0⟩, ⟨0, 500⟩] := by
    norm_num [getCoordinatesForProgress, cexPath, getCoordinatesForProgressLoop,
      taxicab, interpPoint]
  refine ⟨by norm_num, by norm_num,
    by norm_num [calculateTotalDistance, taxicab, cexPath], h250, h500, ?_, ?_⟩
  · rw [h250, h500]; simp
  · rw [h250, h500]
    rintro ⟨t, ht⟩
    have hlen := congrArg List.length ht
    simp only [List.length_append, List.length_cons, List.length_nil] at hlen
    have ht0 : t = [] := List.length_eq_zero.mp (by omega)
    subst ht0
    simp only [List.append_nil] at ht
    norm_num [List.cons.injEq, Coord.mk.injEq] at ht

/-- C6 as amended: for a nonnegative, segment linear distance function and
all distances 0 <= d1 < d2 <= totalDistance, the trail at d1 has at most as
many points as the trail at d2 (equality is possible when both distances fall
in the same segment), a strictly smaller cumulative length, and the trail at
d1 without its final interpolated point is an initial segment of the trail
at d2. -/
theorem c6_monotone (dist : Coord → Coord → ℚ)
    (hd : ∀ a b, 0 ≤ dist a b)
    (hlin : ∀ (a b : Coord) (r : ℚ), 0 ≤ r → r ≤ 1 →
      dist a (interpPoint a b r) = r * dist a b)
    (path : List Coord) (d1 d2 : ℚ)
    (h1 : 0 ≤ d1) (h12 : d1 < d2) (h2 : d2 ≤ calculateTotalDistance dist path) :
    (getCoordinatesForProgress dist path d1).length ≤
      (getCoordinatesForProgress dist path d2).length ∧
    calculateTotalDistance dist (getCoordinatesForProgress dist path d1) <
      calculateTotalDistance dist (getCoordinatesForProgress dist path d2) ∧
    ∃ t, (getCoordinatesForProgress dist path d1).dropLast ++ t =
      getCoordinatesForProgress dist path d2 := by
  have hd2pos : 0 < d2 := lt_of_le_of_lt h1 h12
  have hctd : 0 < calculateTotalDistance dist path := lt_of_lt_of_le hd2pos h2
  have hne : path ≠ [] := by
    intro h
    rw [h] at hctd
    simp [calculateTotalDistance] at hctd
  have hlen2 : 2 ≤ path.length := two_le_length_of_ctd_pos dist path hctd
  have hcond2 : ¬ (d2 ≤ 0 ∨ path.length < 2) := by
    push_neg
    exact ⟨hd2pos, by omega⟩
  obtain ⟨i2, hi21, hi22, hi23, hres2⟩ :=
    getCoordinatesLoop_hit dist d2 path 0 [] hd2pos (by linarith)
  have hres2' : getCoordinatesForProgress dist path d2 =
      path.take (i2 + 1) ++
        [interpPoint (path.getD i2 default) (path.getD (i2 + 1) default)
          ((d2 - cumDist dist path i2) /
            dist (path.getD i2 default) (path.getD (i2 + 1) default))] := by
    unfold getCoordinatesForProgress
    rw [if_neg hcond2]
    simpa using hres2
  have hc1 : calculateTotalDistance dist (getCoordinatesForProgress dist path d1) = d1 :=
    ctd_progress_eq dist hd hlin path hne d1 h1 (by linarith)
  have hc2 : calculateTotalDistance dist (getCoordinatesForProgress dist path d2) = d2 :=
    ctd_progress_eq dist hd hlin path hne d2 (le_of_lt hd2pos) h2
  by_cases hd1z : d1 ≤ 0
  · have hres1 : getCoordinatesForProgress dist path d1 = [path.getD 0 default] := by
      cases path with
      | nil => exact absurd rfl hne
      | cons a t => simp [getCoordinatesForProgress, hd1z]
    refine ⟨?_, ?_, ?_⟩
    · rw [hres1, hres2']
      simp
    · rw [hc1, hc2]; exact h12
    · rw [hres1, hres2']
      exact ⟨path.take (i2 + 1) ++
        [interpPoint (path.getD i2 default) (path.getD (i2 + 1) default)
          ((d2 - cumDist dist path i2) /
            dist (path.getD i2 default) (path.getD (i2 + 1) default))], by simp⟩
  · have hd1pos : 0 < d1 := lt_of_not_le hd1z
    have hcond1 : ¬ (d1 ≤ 0 ∨ path.length < 2) := by
      push_neg
      exact ⟨hd1pos, by omega⟩
    obtain ⟨i1, hi11, hi12, hi13, hres1⟩ :=
      getCoordinatesLoop_hit dist d1 path 0 [] hd1pos (by linarith)
    have hres1' : getCoordinatesForProgress dist path d1 =
        path.take (i1 + 1) ++
          [interpPoint (path.getD i1 default) (path.getD (i1 + 1) default)
            ((d1 - cumDist dist path i1) /
              dist (path.getD i1 default) (path.getD (i1 + 1) default))] := by
      unfold getCoordinatesForProgress
      rw [if_neg hcond1]
      simpa using hres1
    have hle12 : i1 ≤ i2 := by
      by_contra hgt
      push_neg at hgt
      have hlt := hi13 i2 hgt
      have h22 := hi22
      simp only [zero_add] at hlt h22
      linarith
    refine ⟨?_, by rw [hc1, hc2]; exact h12, ?_⟩
    · rw [hres1', hres2']
      simp only [List.length_append, List.length_take, List.length_cons, List.length_nil]
      rw [min_eq_left (by omega), min_eq_left (by omega)]
      omega
    · rw [hres1', hres2', List.dropLast_concat]
      refine ⟨(path.take (i2 + 1)).drop (i1 + 1) ++
        [interpPoint (path.getD i2 default) (path.getD (i2 + 1) default)
          ((d2 - cumDist dist path i2) /
            dist (path.getD i2 default) (path.getD (i2 + 1) default))], ?_⟩
      rw [← List.append_assoc]
      congr 1
      have h1' : path.take (i1 + 1) = (path.take (i2 + 1)).take (i1 + 1) := by
        rw [List.take_take, min_eq_left (by omega)]
      rw [h1', List.take_append_drop]

/-- Witness for the amended C6 on concrete inputs. -/
theorem c6_witness :
    (0 : ℚ) ≤ 250 ∧ (250 : ℚ) < 500 ∧
    (500 : ℚ) ≤ calculateTotalDistance taxicab cexPath ∧
    (getCoordinatesForProgress taxicab cexPath 250).length ≤
      (getCoordinatesForProgress taxicab cexPath 500).length ∧
    calculateTotalDistance taxicab (getCoordinatesForProgress taxicab cexPath 250) <
      calculateTotalDistance taxicab (getCoordinatesForProgress taxicab cexPath 500) ∧
    ∃ t, (getCoordinatesForProgress taxicab cexPath 250).dropLast ++ t =
      getCoordinatesForProgress taxicab cexPath 500 := by
  have h := c6_monotone taxicab taxicab_nonneg taxicab_interp_linear cexPath 250 500
    (by norm_num) (by norm_num) (by norm_num [calculateTotalDistance, taxicab, cexPath])
  exact ⟨by norm_num, by norm_num,
    by norm_num [calculateTotalDistance, taxicab, cexPath], h.1, h.2.1, h.2.2⟩

/-- C10: the zoom applied each frame equals the linear interpolation formula
of updateMarkerPosition clamped to [12, 17], and it always lies within
[minZoom, maxZoom] = [12, 17], for every speed value. -/
theorem c10_zoom_clamped (speed : ℚ) :
    clampedMarkerZoom speed =
      min (max (17 - (speed - 10) / (300 - 10) * (17 - 12)) 12) 17 ∧
    12 ≤ clampedMarkerZoom speed ∧ clampedMarkerZoom speed ≤ 17 := by
  refine ⟨rfl, ?_, ?_⟩
  · unfold clampedMarkerZoom
    exact le_min (le_max_right _ _) (by norm_num)
  · unfold clampedMarkerZoom
    exact min_le_right _ _

/-- C9 as amended: starting on a path of fewer than 2 coordinates (from a
state with no pending frame request) leaves every component of the state
unchanged except that isAnimating is forced to false; in particular no
recording is opened, progress is untouched, and no error message is
surfaced: the error observable keeps its previous value (the source sets it
only on data load failure). -/
theorem c9_short_path_start (dist : Coord → Coord → ℚ) (coords : List Coord)
    (s : AnimState) (hlen : coords.length < 2) (hfr : s.animationFrameId = none) :
    (startC dist coords s).1 = { s with isAnimating := false } ∧
    (startC dist coords s).2 = false ∧
    (startC dist coords s).1.isAnimating = false ∧
    (startC dist coords s).1.error = s.error ∧
    (startC dist coords s).1.progress = s.progress ∧
    (startC dist coords s).1.isRecording = s.isRecording ∧
    (startC dist coords s).1.downloadUrl = s.downloadUrl := by
  have hmain : startC dist coords s = ({ s with isAnimating := false }, false) := by
    unfold startC startAnimation
    rw [if_pos hlen]
    simp [stopAnimation, hfr]
  rw [hmain]
  exact ⟨rfl, rfl, rfl, rfl, rfl, rfl, rfl⟩

/-- Counterexample to the error message part of C9 as stated: starting on a
concrete single point path from the freshly mounted state refuses to
animate, but the error observable stays none: no user visible error message
is surfaced. -/
theorem c9_counterexample :
    mountedState.error = none ∧
    shortPath.length < 2 ∧
    (startC taxicab shortPath mountedState).1.isAnimating = false ∧
    (startC taxicab shortPath mountedState).1.error = none := by
  refine ⟨rfl, by decide, ?_, ?_⟩ <;>
    simp [startC, startAnimation, shortPath, stopAnimation, mountedState]

/-- Witness for the amended C9 on concrete inputs. -/
theorem c9_witness :
    shortPath.length < 2 ∧
    mountedState.animationFrameId = none ∧
    (startC taxicab shortPath mountedState).1 =
      { mountedState with isAnimating := false } :=
  ⟨by decide, rfl,
   (c9_short_path_start taxicab shortPath mountedState (by decide) rfl).1⟩

/-- Evaluation of the start step of the concrete run: the bootstrap animate()
call (undefined timestamp) leaves startTime undefined and progress NaN and
schedules the first frame; recording has started. -/
theorem runA_eq : runA =
    ({ isAnimating := true, animationSpeed := 90, progress := JVal.nan,
       startTime := JVal.nan, animationFrameId := some 1, markerExists := true,
       isRecording := true, hasRecorder := true, captureTimerOn := true,
       pendingStop := false, recordedChunks := [], downloadUrl := none,
       error := none }, true) := by
  norm_num [runA, startC, startAnimation, preRunState, mountedState, startRecording,
    animate, JVal.falsy, jsub, jdiv, jmul, jmin, jle, JVal.toNumber, cexPath]

/-- Evaluation of the first frame tick at timestamp 100: startTime is
anchored and progress becomes 0. -/
theorem runB_eq : runB =
    { isAnimating := true, animationSpeed := 90, progress := JVal.num 0,
      startTime := JVal.num 100, animationFrameId := some 1, markerExists := true,
      isRecording := true, hasRecorder := true, captureTimerOn := true,
      pendingStop := false, recordedChunks := [], downloadUrl := none,
      error := none } := by
  rw [runB, runA_eq]
  norm_num [animate, JVal.falsy, jsub, jdiv, jmul, jmin, jle, JVal.toNumber,
    kmPerHourToMetersPerMs, calculateTotalDistance, taxicab, cexPath, min_def]

/-- Evaluation of the tick at timestamp 160 at 90 km/h: progress 3/10. -/
theorem runC_eq : runC =
    { isAnimating := true, animationSpeed := 90, progress := JVal.num (3 / 10),
      startTime := JVal.num 100, animationFrameId := some 1, markerExists := true,
      isRecording := true, hasRecorder := true, captureTimerOn := true,
      pendingStop := false, recordedChunks := [], downloadUrl := none,
      error := none } := by
  rw [runC, runB_eq]
  norm_num [animate, JVal.falsy, jsub, jdiv, jmul, jmin, jle, JVal.toNumber,
    kmPerHourToMetersPerMs, calculateTotalDistance, taxicab, cexPath, min_def]

/-- Evaluation of the first tick after the speed change to 180 km/h, at
timestamp 190: the whole elapsed time 90 is repriced at the new effective
rate 10 m/ms, giving progress 9/10. -/
theorem runE_eq : runE =
    { isAnimating := true, animationSpeed := 180, progress := JVal.num (9 / 10),
      startTime := JVal.num 100, animationFrameId := some 1, markerExists := true,
      isRecording := true, hasRecorder := true, captureTimerOn := true,
      pendingStop := false, recordedChunks := [], downloadUrl := none,
      error := none } := by
  rw [runE, runD, runC_eq]
  norm_num [setAnimationSpeed, animate, JVal.falsy, jsub, jdiv, jmul, jmin, jle,
    JVal.toNumber, kmPerHourToMetersPerMs, calculateTotalDistance, taxicab, cexPath,
    min_def]

/-- Evaluation of the pause at progress 3/10: the pending frame is cancelled
and startTime is set to 0; no elapsed time is recorded anywhere. -/
theorem runP_eq : runP =
    { isAnimating := false, animationSpeed := 90, progress := JVal.num (3 / 10),
      startTime := JVal.num 0, animationFrameId := none, markerExists := true,
      isRecording := true, hasRecorder := true, captureTimerOn := true,
      pendingStop := false, recordedChunks := [], downloadUrl := none,
      error := none } := by
  rw [runP, runC_eq]
  norm_num [pauseC, stopAnimation]

/-- Evaluation of the resume: the bootstrap animate() call finds the falsy
startTime 0, re sets it to the undefined timestamp and computes a NaN
progress, then schedules a frame. -/
theorem runR_eq : runR =
    ({ isAnimating := true, animationSpeed := 90, progress := JVal.nan,
       startTime := JVal.nan, animationFrameId := some 1, markerExists := true,
       isRecording := true, hasRecorder := true, captureTimerOn := true,
       pendingStop := false, recordedChunks := [], downloadUrl := none,
       error := none }, true) := by
  rw [runR, runP_eq]
  norm_num [startC, startAnimation, startRecording, animate, JVal.falsy, jsub, jdiv,
    jmul, jmin, jle, JVal.toNumber, cexPath]

/-- Evaluation of the first real tick after the resume, at timestamp 200:
startTime is re anchored to 200, elapsed is 0 and progress restarts at 0
even though it was 3/10 at the moment of pause. -/
theorem runT_eq : runT =
    { isAnimating := true, animationSpeed := 90, progress := JVal.num 0,
      startTime := JVal.num 200, animationFrameId := some 1, markerExists := true,
      isRecording := true, hasRecorder := true, captureTimerOn := true,
      pendingStop := false, recordedChunks := [], downloadUrl := none,
      error := none } := by
  rw [runT, runR_eq]
  norm_num [animate, JVal.falsy, jsub, jdiv, jmul, jmin, jle, JVal.toNumber,
    kmPerHourToMetersPerMs, calculateTotalDistance, taxicab, cexPath, min_def]

/-- The start step of the start then reset scenario coincides with the start
step of the main concrete run. -/
theorem c5AfterStart_eq : c5AfterStart = runA := rfl

/-- Evaluation of the reset step: recording is stopped, which queues the
recorder onstop callback (pendingStop), and resetAnimation clears
downloadUrl. -/
theorem c5AfterReset_eq : c5AfterReset =
    { isAnimating := false, animationSpeed := 90, progress := JVal.num 0,
      startTime := JVal.num 0, animationFrameId := none, markerExists := true,
      isRecording := false, hasRecorder := true, captureTimerOn := false,
      pendingStop := true, recordedChunks := [], downloadUrl := none,
      error := none } := by
  rw [c5AfterReset, c5AfterStart_eq, runA_eq]
  norm_num [resetC, resetAnimation, stopRecording, stopAnimation]

/-- C5 evaluated at the failing input: after start() followed immediately by
reset() (before any frame tick), downloadUrl is indeed cleared by the reset
itself, but once the queued MediaRecorder onstop callback runs, it builds a
blob from the recorded chunks and stores its object URL, so a capture
artifact is produced and downloadHandle ends up set, contradicting C5. -/
theorem c5_artifact_after_reset :
    c5AfterReset.downloadUrl = none ∧
    c5AfterReset.pendingStop = true ∧
    c5Final.downloadUrl = some [] ∧
    c5Final.downloadUrl ≠ none := by
  refine ⟨by rw [c5AfterReset_eq], by rw [c5AfterReset_eq], ?_, ?_⟩
  · rw [c5Final, c5AfterReset_eq]
    norm_num [runPendingOnStop]
  · rw [c5Final, c5AfterReset_eq]
    norm_num [runPendingOnStop]
    simp

/-- Counterexample to C1 as stated: in the concrete run, at the last tick
before the speed change (timestamp 160, speed 90) the marker is at distance
300; at the first tick after the change to 180 km/h (timestamp 190) the code
places the marker at distance 900, not at 300 plus the 30 ms of intervening
elapsed time priced at the new rate (which would be 600): the whole elapsed
time is repriced at the new rate and the position jumps. -/
theorem c1_counterexample :
    runC.progress = JVal.num (3 / 10) ∧
    markerPosition taxicab cexPath runC = some ⟨0, 300⟩ ∧
    runE.progress = JVal.num (9 / 10) ∧
    markerPosition taxicab cexPath runE = some ⟨0, 900⟩ ∧
    getLatLngAndRotationAtDistance taxicab cexPath
      (300 + (190 - 160) * effectiveRate 180) = some ⟨0, 600⟩ ∧
    markerPosition taxicab cexPath runE ≠
      getLatLngAndRotationAtDistance taxicab cexPath
        (300 + (190 - 160) * effectiveRate 180) := by
  have hC : markerPosition taxicab cexPath runC = some ⟨0, 300⟩ := by
    rw [runC_eq]
    norm_num [markerPosition, jmul, JVal.toNumber, calculateTotalDistance, taxicab,
      cexPath, getLatLngAndRotationAtDistance, getLatLngAtDistanceLoop, interpPoint]
  have hE : markerPosition taxicab cexPath runE = some ⟨0, 900⟩ := by
    rw [runE_eq]
    norm_num [markerPosition, jmul, JVal.toNumber, calculateTotalDistance, taxicab,
      cexPath, getLatLngAndRotationAtDistance, getLatLngAtDistanceLoop, interpPoint]
  have hclaim : getLatLngAndRotationAtDistance taxicab cexPath
      (300 + (190 - 160) * effectiveRate 180) = some ⟨0, 600⟩ := by
    norm_num [effectiveRate, kmPerHourToMetersPerMs, getLatLngAndRotationAtDistance,
      getLatLngAtDistanceLoop, calculateTotalDistance, taxicab, cexPath, interpPoint]
  refine ⟨by rw [runC_eq], hC, by rw [runE_eq], hE, hclaim, ?_⟩
  rw [hE, hclaim]
  simp only [ne_eq, Option.some.injEq, Coord.mk.injEq]
  norm_num

/-- Counterexample to C2 as stated: in the concrete run paused at
progressFraction 3/10, the progressFraction at the first tick after the
resume is 0, not 3/10. -/
theorem c2_counterexample :
    runP.progress = JVal.num (3 / 10) ∧
    runT.progress = JVal.num 0 ∧
    runT.progress ≠ runP.progress := by
  refine ⟨by rw [runP_eq], by rw [runT_eq], ?_⟩
  rw [runP_eq, runT_eq]
  simp only [ne_eq, JVal.num.injEq]
  norm_num

/-- Evaluation of one animate tick from a Running state whose startTime is a
nonzero number: progress is recomputed from the total elapsed time at the
current speed; on completion (progress 1) the state stops and recording is
finalised with no frame requested, otherwise a frame is requested. -/
theorem animate_tick (dist : Coord → Coord → ℚ) (coords : List Coord)
    (s : AnimState) (t0 t : ℚ)
    (hA : s.isAnimating = true) (hst : s.startTime = JVal.num t0) (ht0 : t0 ≠ 0)
    (hE : effectiveRate s.animationSpeed ≠ 0)
    (hD : calculateTotalDistance dist coords ≠ 0) :
    animate dist coords s (JVal.num t) =
      if 1 ≤ min ((t - t0) /
          (calculateTotalDistance dist coords / effectiveRate s.animationSpeed)) 1 then
        (stopRecording
          { s with
            isAnimating := false
            startTime := JVal.null
            progress := JVal.num (min ((t - t0) /
              (calculateTotalDistance dist coords / effectiveRate s.animationSpeed)) 1) },
         false)
      else
        ({ s with
            startTime := JVal.num t0
            progress := JVal.num (min ((t - t0) /
              (calculateTotalDistance dist coords / effectiveRate s.animationSpeed)) 1)
            animationFrameId := some 1 }, true) := by
  have hDE : calculateTotalDistance dist coords / effectiveRate s.animationSpeed ≠ 0 :=
    div_ne_zero hD hE
  have hfal : s.startTime.falsy = false := by
    rw [hst]
    simp [JVal.falsy, ht0]
  unfold animate
  rw [hA, hfal, hst]
  simp only [Bool.true_eq_false, if_false, Bool.false_eq_true, if_true, ite_false,
    ite_true]
  unfold effectiveRate at hE hDE ⊢
  simp only [jsub, jdiv, jmin, jle, JVal.toNumber, hE, hDE, if_neg, if_false,
    decide_eq_true_eq]

/-- C4: on a tick where the computed progress reaches 1 (elapsed at least the
estimated duration), animate stops the scheduler, finalises the capture
session (recording stops and the recorder stop callback is queued), clears
startTime and requests no further frame; any subsequent animate call on the
resulting state is a strict no op: it returns the state unchanged and
requests no frame. -/
theorem c4_completion (dist : Coord → Coord → ℚ) (coords : List Coord)
    (s : AnimState) (t0 t : ℚ)
    (hA : s.isAnimating = true)
    (hst : s.startTime = JVal.num t0) (ht0 : t0 ≠ 0)
    (heff : 0 < effectiveRate s.animationSpeed)
    (htot : 0 < calculateTotalDistance dist coords)
    (hrec : s.hasRecorder = true) (hisrec : s.isRecording = true)
    (hdone : calculateTotalDistance dist coords / effectiveRate s.animationSpeed ≤ t - t0) :
    (animate dist coords s (JVal.num t)).1.isAnimating = false ∧
    (animate dist coords s (JVal.num t)).2 = false ∧
    (animate dist coords s (JVal.num t)).1.progress = JVal.num 1 ∧
    (animate dist coords s (JVal.num t)).1.isRecording = false ∧
    (animate dist coords s (JVal.num t)).1.pendingStop = true ∧
    (animate dist coords s (JVal.num t)).1.startTime = JVal.null ∧
    (∀ ts : JVal, animate dist coords (animate dist coords s (JVal.num t)).1 ts =
      ((animate dist coords s (JVal.num t)).1, false)) := by
  have hx : 1 ≤ (t - t0) /
      (calculateTotalDistance dist coords / effectiveRate s.animationSpeed) :=
    (one_le_div (div_pos htot heff)).mpr hdone
  have hmin : min ((t - t0) /
      (calculateTotalDistance dist coords / effectiveRate s.animationSpeed)) 1 = 1 :=
    min_eq_right hx
  have hmain := animate_tick dist coords s t0 t hA hst ht0 (ne_of_gt heff) (ne_of_gt htot)
  rw [hmin, if_pos le_rfl] at hmain
  have h1 : (animate dist coords s (JVal.num t)).1.isAnimating = false := by
    rw [hmain]; simp [stopRecording, hrec, hisrec]
  refine ⟨h1, ?_, ?_, ?_, ?_, ?_, ?_⟩
  · rw [hmain]
  · rw [hmain]; simp [stopRecording, hrec, hisrec]
  · rw [hmain]; simp [stopRecording, hrec, hisrec]
  · rw [hmain]; simp [stopRecording, hrec, hisrec]
  · rw [hmain]; simp [stopRecording, hrec, hisrec]
  · intro ts
    set X := (animate dist coords s (JVal.num t)).1 with hX
    unfold animate
    rw [h1]
    simp

/-- Witness for C4 on the concrete run: a tick at timestamp 300 from state
runE (elapsed 200 ms, estimated duration 100 ms at 180 km/h) completes the
animation, and a further animate call is a no op. -/
theorem c4_witness :
    runE.isAnimating = true ∧
    runE.startTime = JVal.num 100 ∧
    runE.isRecording = true ∧
    (animate taxicab cexPath runE (JVal.num 300)).1.isAnimating = false ∧
    (animate taxicab cexPath runE (JVal.num 300)).2 = false ∧
    (animate taxicab cexPath runE (JVal.num 300)).1.pendingStop = true ∧
    animate taxicab cexPath (animate taxicab cexPath runE (JVal.num 300)).1 JVal.nan =
      ((animate taxicab cexPath runE (JVal.num 300)).1, false) := by
  have h := c4_completion taxicab cexPath runE 100 300
    (by rw [runE_eq]) (by rw [runE_eq]) (by norm_num)
    (by norm_num [runE_eq, effectiveRate, kmPerHourToMetersPerMs])
    (by norm_num [calculateTotalDistance, taxicab, cexPath])
    (by rw [runE_eq]) (by rw [runE_eq])
    (by norm_num [runE_eq, effectiveRate, kmPerHourToMetersPerMs,
      calculateTotalDistance, taxicab, cexPath])
  exact ⟨by rw [runE_eq], by rw [runE_eq], by rw [runE_eq], h.1, h.2.1,
    h.2.2.2.2.1, h.2.2.2.2.2.2 JVal.nan⟩

/-- C1 as amended: a speed change between two consecutive ticks takes effect
on the next tick, but the progress of that tick is the ENTIRE elapsed time
repriced at the new effective rate, not the previous progress plus the
intervening time at the new rate: the difference between the actual new
progress and the value the original claim predicts is exactly
(t1 - t0) * (newRate - oldRate) / totalDistance, which is nonzero whenever
the effective rates differ and some time had elapsed, so the position jumps
discontinuously at the speed change. -/
theorem c1_speed_change_rescales (dist : Coord → Coord → ℚ) (coords : List Coord)
    (s : AnimState) (t0 t1 t2 v2 : ℚ)
    (hA : s.isAnimating = true)
    (hst : s.startTime = JVal.num t0) (ht0 : t0 ≠ 0)
    (he1 : 0 < effectiveRate s.animationSpeed) (he2 : 0 < effectiveRate v2)
    (htot : 0 < calculateTotalDistance dist coords)
    (hp1 : (t1 - t0) * effectiveRate s.animationSpeed /
      calculateTotalDistance dist coords < 1)
    (hp2 : (t2 - t0) * effectiveRate v2 / calculateTotalDistance dist coords < 1) :
    (animate dist coords s (JVal.num t1)).1.progress =
      JVal.num ((t1 - t0) * effectiveRate s.animationSpeed /
        calculateTotalDistance dist coords) ∧
    (animate dist coords
        (setAnimationSpeed (animate dist coords s (JVal.num t1)).1 v2)
        (JVal.num t2)).1.progress =
      JVal.num ((t2 - t0) * effectiveRate v2 / calculateTotalDistance dist coords) ∧
    (t2 - t0) * effectiveRate v2 / calculateTotalDistance dist coords -
        ((t1 - t0) * effectiveRate s.animationSpeed /
            calculateTotalDistance dist coords +
          (t2 - t1) * effectiveRate v2 / calculateTotalDistance dist coords) =
      (t1 - t0) * (effectiveRate v2 - effectiveRate s.animationSpeed) /
        calculateTotalDistance dist coords := by
  have hconv1 : (t1 - t0) /
      (calculateTotalDistance dist coords / effectiveRate s.animationSpeed) =
      (t1 - t0) * effectiveRate s.animationSpeed / calculateTotalDistance dist coords :=
    div_div_eq_mul_div _ _ _
  have h1lt : (t1 - t0) /
      (calculateTotalDistance dist coords / effectiveRate s.animationSpeed) < 1 := by
    rw [hconv1]; exact hp1
  have hm1 := animate_tick dist coords s t0 t1 hA hst ht0 (ne_of_gt he1) (ne_of_gt htot)
  rw [min_eq_left h1lt.le, if_neg (not_le.mpr h1lt)] at hm1
  have hs2A : (setAnimationSpeed (animate dist coords s (JVal.num t1)).1 v2).isAnimating
      = true := by
    rw [hm1]; simp [setAnimationSpeed, hA]
  have hs2st : (setAnimationSpeed (animate dist coords s (JVal.num t1)).1 v2).startTime
      = JVal.num t0 := by
    rw [hm1]; simp [setAnimationSpeed]
  have hs2sp : (setAnimationSpeed (animate dist coords s (JVal.num t1)).1 v2).animationSpeed
      = v2 := by
    simp [setAnimationSpeed]
  have hm2 := animate_tick dist coords
    (setAnimationSpeed (animate dist coords s (JVal.num t1)).1 v2) t0 t2 hs2A hs2st ht0
    (by rw [hs2sp]; exact ne_of_gt he2) (ne_of_gt htot)
  rw [hs2sp] at hm2
  have hconv2 : (t2 - t0) / (calculateTotalDistance dist coords / effectiveRate v2) =
      (t2 - t0) * effectiveRate v2 / calculateTotalDistance dist coords :=
    div_div_eq_mul_div _ _ _
  have h2lt : (t2 - t0) /
      (calculateTotalDistance dist coords / effectiveRate v2) < 1 := by
    rw [hconv2]; exact hp2
  rw [min_eq_left h2lt.le, if_neg (not_le.mpr h2lt)] at hm2
  refine ⟨?_, ?_, ?_⟩
  · rw [hm1]
    simp [hconv1]
  · rw [hm2]
    simp [hconv2]
  · have hDne : calculateTotalDistance dist coords ≠ 0 := ne_of_gt htot
    field_simp
    ring

/-- Witness for the amended C1 on the concrete run: after the change from 90
to 180 km/h, the tick at timestamp 190 computes progress from the whole
elapsed time 90 ms at the new rate. -/
theorem c1_witness :
    runB.isAnimating = true ∧
    runB.startTime = JVal.num 100 ∧
    (animate taxicab cexPath
        (setAnimationSpeed (animate taxicab cexPath runB (JVal.num 160)).1 180)
        (JVal.num 190)).1.progress =
      JVal.num ((190 - 100) * effectiveRate 180 /
        calculateTotalDistance taxicab cexPath) := by
  have h := c1_speed_change_rescales taxicab cexPath runB 100 160 190 180
    (by rw [runB_eq]) (by rw [runB_eq]) (by norm_num)
    (by norm_num [runB_eq, effectiveRate, kmPerHourToMetersPerMs])
    (by norm_num [effectiveRate, kmPerHourToMetersPerMs])
    (by norm_num [calculateTotalDistance, taxicab, cexPath])
    (by norm_num [runB_eq, effectiveRate, kmPerHourToMetersPerMs,
      calculateTotalDistance, taxicab, cexPath])
    (by norm_num [effectiveRate, kmPerHourToMetersPerMs,
      calculateTotalDistance, taxicab, cexPath])
  exact ⟨by rw [runB_eq], by rw [runB_eq], h.2.1⟩

/-- C2 as amended: pause cancels the pending frame and sets the module level
start timestamp to 0 without recording the elapsed time anywhere; the resume
does not re anchor the start timestamp to now minus elapsed: its bootstrap
animate() call leaves startTime undefined and progress NaN, and the first
real tick after the resume re anchors startTime to its own timestamp, so the
progressFraction at the first tick after resume is 0 (not the value at the
moment of pause), restarting the animation from the beginning. -/
theorem c2_resume_restarts (dist : Coord → Coord → ℚ) (coords : List Coord)
    (s : AnimState) (t : ℚ)
    (hA : s.isAnimating = true)
    (hfr : s.animationFrameId.isSome = true)
    (hmk : s.markerExists = true)
    (hrec : s.isRecording = true)
    (hlen : ¬ coords.length < 2)
    (hE : effectiveRate s.animationSpeed ≠ 0)
    (hD : calculateTotalDistance dist coords ≠ 0) :
    (pauseC s).isAnimating = false ∧
    (pauseC s).progress = s.progress ∧
    (pauseC s).startTime = JVal.num 0 ∧
    (startC dist coords (pauseC s)).1.progress = JVal.nan ∧
    (startC dist coords (pauseC s)).1.startTime = JVal.nan ∧
    (startC dist coords (pauseC s)).2 = true ∧
    (animate dist coords (startC dist coords (pauseC s)).1 (JVal.num t)).1.progress =
      JVal.num 0 := by
  have hpause : pauseC s =
      { s with isAnimating := false, animationFrameId := none, startTime := JVal.num 0 } := by
    unfold pauseC stopAnimation
    simp [hfr]
  have hresume : startC dist coords (pauseC s) =
      ({ s with
          isAnimating := true
          animationFrameId := some 1
          startTime := JVal.nan
          progress := JVal.nan
          downloadUrl := none }, true) := by
    rw [hpause]
    unfold startC startAnimation startRecording animate
    simp [hlen, hmk, hrec, JVal.falsy, jsub, jdiv, jmin, jle, JVal.toNumber]
  have hDE : calculateTotalDistance dist coords / effectiveRate s.animationSpeed ≠ 0 :=
    div_ne_zero hD hE
  have htick : (animate dist coords (startC dist coords (pauseC s)).1
      (JVal.num t)).1.progress = JVal.num 0 := by
    rw [hresume]
    unfold animate
    have hE2 : kmPerHourToMetersPerMs s.animationSpeed ≠ 0 := by
      intro h
      apply hE
      unfold effectiveRate
      rw [h]; ring
    have hmin01 : min (0 : ℚ) 1 = 0 := min_eq_left (by norm_num)
    norm_num [JVal.falsy, jsub, jdiv, jmin, jle, JVal.toNumber, hD, hE2, sub_self,
      zero_div, div_eq_zero_iff, hmin01]
  refine ⟨?_, ?_, ?_, ?_, ?_, ?_, htick⟩
  · rw [hpause]
  · rw [hpause]
  · rw [hpause]
  · rw [hresume]
  · rw [hresume]
  · rw [hresume]

/-- Witness for the amended C2 on the concrete run: pausing at progress 3/10
and resuming, the first tick after the resume has progress 0. -/
theorem c2_witness :
    runC.isAnimating = true ∧
    runC.isRecording = true ∧
    (animate taxicab cexPath (startC taxicab cexPath (pauseC runC)).1
      (JVal.num 200)).1.progress = JVal.num 0 := by
  have h := c2_resume_restarts taxicab cexPath runC 200
    (by rw [runC_eq]) (by rw [runC_eq]; rfl) (by rw [runC_eq]) (by rw [runC_eq])
    (by decide)
    (by norm_num [runC_eq, effectiveRate, kmPerHourToMetersPerMs])
    (by norm_num [calculateTotalDistance, taxicab, cexPath])
  exact ⟨by rw [runC_eq], by rw [runC_eq], h.2.2.2.2.2.2⟩
